import Mathlib

/-
Verification of the Calorie-Goal Engine and Nutrition Aggregation logic of
the Hill-Callories web application.  The definitions below are a shallow
embedding of the TypeScript source in src/src/components/NutritionResults.tsx:
numbers are modelled as rationals, JavaScript Math.round as floor of x + 1/2,
timestamps as rationals under the usual order, and the asynchronous dual-write
persistence as a pure function over the outcomes of the two writes.
-/

namespace HillCalories

/-- Gender as used by calculateBMR (source string literals male / female). -/
inductive Gender
| male
| female
deriving DecidableEq

/-- Unit system as used by calculateCalories (source string literals metric / imperial). -/
inductive UnitSystem
| metric
| imperial
deriving DecidableEq

/-- JavaScript Math.round semantics: floor of x + 1/2, mapping rationals to integers. -/
def mathRound (q : ℚ) : ℤ := (q + 1/2).floor

/-- calculateBMR, NutritionResults.tsx lines 342-349 (Mifflin-St Jeor equation). -/
def calculateBMR (age weight height : ℚ) (gender : Gender) : ℚ :=
  if gender = Gender.male then
    (10 * weight) + (6.25 * height) - (5 * age) + 5
  else
    (10 * weight) + (6.25 * height) - (5 * age) - 161

/-- Result record set by calculateCalories (the setResults call, lines 374-380). -/
structure CalorieResult where
  bmr : ℤ
  tdee : ℤ
  maintenance : ℤ
  weightLoss : ℤ
  weightGain : ℤ
deriving DecidableEq

/-- The inline imperial-to-metric conversion in calculateCalories, lines 362-369:
imperial weight is multiplied by 0.453592 (pounds to kg) and height by 2.54
(inches to cm); metric values pass through unchanged, with no rounding. -/
def toMetric (weight height : ℚ) (unit : UnitSystem) : ℚ × ℚ :=
  if unit = UnitSystem.imperial then
    (weight * 0.453592, height * 2.54)
  else
    (weight, height)

/-- calculateCalories, NutritionResults.tsx lines 352-382.  The guard on line 358
rejects age, weight or height below 1 (the JavaScript falsiness checks on zero
are subsumed by the comparisons against 1); the function then converts units,
computes BMR from the converted values and TDEE from the unrounded BMR, and
rounds each published figure. -/
def calculateCalories (age weight height : ℚ) (gender : Gender)
    (activityMultiplier : ℚ) (unit : UnitSystem) : Option CalorieResult :=
  if age < 1 ∨ weight < 1 ∨ height < 1 then
    none
  else
    let wh := toMetric weight height unit
    let bmr := calculateBMR age wh.1 wh.2 gender
    let tdee := bmr * activityMultiplier
    some
      { bmr := mathRound bmr
        tdee := mathRound tdee
        maintenance := mathRound tdee
        weightLoss := mathRound (tdee - 500)
        weightGain := mathRound (tdee + 500) }

/-- A stored calorie goal record, matching the goalData shape built in
saveCalorieGoal (lines 417-436) and the calorie_goals table columns. -/
structure CalorieGoal where
  id : String
  user_id : String
  bmr : ℚ
  tdee : ℚ
  maintenance_calories : ℚ
  weight_loss_calories : ℚ
  weight_gain_calories : ℚ
  age : ℚ
  weight : ℚ
  height : ℚ
  gender : String
  activity_level : ℚ
  unit_system : String
  goal_type : String
  protein_goal : Option ℚ
  carbs_goal : Option ℚ
  fat_goal : Option ℚ
  created_at : String
deriving DecidableEq

/-- The current-goal selection in fetchCalorieGoals, lines 958-963: the fetched
list is ordered by created_at descending, and currentGoal is set to the first
element exactly when that element has a truthy (non-empty) id and
maintenance_calories > 0; in every other case currentGoal is set to null. -/
def selectCurrentGoal (goals : List CalorieGoal) : Option CalorieGoal :=
  match goals with
  | [] => none
  | g :: _ =>
      if g.id ≠ "" ∧ g.maintenance_calories > 0 then some g else none

/-- Modelled from the spec wording of selectCurrent (section 4.3): return the
first entry of the descending list whose id is non-empty and whose
maintenance_calories > 0, skipping invalid entries; none when no entry is
valid.  Kept separately to compare against the selection the code performs. -/
def selectCurrentSpec (goals : List CalorieGoal) : Option CalorieGoal :=
  goals.find? (fun g => decide (g.id ≠ "" ∧ g.maintenance_calories > 0))

/-- The updatedGoal record built by saveEditedCalorieGoal, lines 1000-1006: a
spread of currentGoal with weight_loss_calories and weight_gain_calories
overwritten by the single edited value and goal_type relabelled as custom
(the database update on lines 1012-1016 writes exactly the same three fields). -/
def saveEditedCalorieGoal (currentGoal : CalorieGoal) (editedCalories : ℚ) : CalorieGoal :=
  { currentGoal with
      weight_loss_calories := editedCalories
      weight_gain_calories := editedCalories
      goal_type := "custom" }

/-- A persisted meal record as consumed by calculateSummary (analyzed_at
modelled as a rational timestamp). -/
structure MealRecord where
  analyzed_at : ℚ
  calories : ℚ
  protein : ℚ
  carbs : ℚ
  fat : ℚ
deriving DecidableEq

/-- Tri-state goal status assigned by calculateSummary, lines 1160-1167. -/
inductive GoalStatus
| under
| over
| met
deriving DecidableEq

/-- The summary record produced by calculateSummary (goal annotations are
optional: they are set only when a current goal exists). -/
structure NutritionSummary where
  totalCalories : ℚ
  totalProtein : ℚ
  totalCarbs : ℚ
  totalFat : ℚ
  mealCount : ℕ
  dailyGoal : Option ℚ
  goalType : Option String
  goalStatus : Option GoalStatus
deriving DecidableEq

/-- The meal filter in calculateSummary, lines 1133-1136: keep meals whose
analyzed_at lies in the window, inclusive at both ends. -/
def mealsInWindow (meals : List MealRecord) (startDate endDate : ℚ) : List MealRecord :=
  meals.filter
    (fun meal => decide (startDate ≤ meal.analyzed_at ∧ meal.analyzed_at ≤ endDate))

/-- One step of the reduce in calculateSummary, lines 1138-1145: add the meal
figures to the running totals and bump the count. -/
def accumulateMeal (acc : NutritionSummary) (meal : MealRecord) : NutritionSummary :=
  { acc with
      totalCalories := acc.totalCalories + meal.calories
      totalProtein := acc.totalProtein + meal.protein
      totalCarbs := acc.totalCarbs + meal.carbs
      totalFat := acc.totalFat + meal.fat
      mealCount := acc.mealCount + 1 }

/-- The all-zero initial accumulator of the reduce, line 1146 (goal annotations
absent). -/
def emptySummary : NutritionSummary :=
  { totalCalories := 0, totalProtein := 0, totalCarbs := 0, totalFat := 0,
    mealCount := 0, dailyGoal := none, goalType := none, goalStatus := none }

/-- The goal-calorie selection inside calculateSummary, lines 1151-1155: the
maintenance figure for goal_type maintenance, the weight-loss figure for
weight_loss, and the weight-gain figure for every other goal_type. -/
def goalCaloriesOf (g : CalorieGoal) : ℚ :=
  if g.goal_type = "maintenance" then g.maintenance_calories
  else if g.goal_type = "weight_loss" then g.weight_loss_calories
  else g.weight_gain_calories

/-- The goal-status conditional inside calculateSummary, lines 1161-1167. -/
def classifyStatus (totalCalories goalCalories : ℚ) : GoalStatus :=
  if totalCalories < goalCalories * 0.9 then GoalStatus.under
  else if totalCalories > goalCalories * 1.1 then GoalStatus.over
  else GoalStatus.met

/-- calculateSummary, NutritionResults.tsx lines 1132-1171: filter meals to the
inclusive window, reduce to totals and a count, then annotate with goal data
when a current goal exists. -/
def calculateSummary (meals : List MealRecord) (startDate endDate : ℚ)
    (currentGoal : Option CalorieGoal) : NutritionSummary :=
  let filteredMeals := mealsInWindow meals startDate endDate
  let summary := filteredMeals.foldl accumulateMeal emptySummary
  match currentGoal with
  | none => summary
  | some g =>
      let goalCalories := goalCaloriesOf g
      { summary with
          dailyGoal := some goalCalories
          goalType := some g.goal_type
          goalStatus := some (classifyStatus summary.totalCalories goalCalories) }

/-- Outcome of a save as reported to the caller of saveCalorieGoal. -/
inductive SaveOutcome
| success
| saveFailed (cause : String)
deriving DecidableEq

/-- The persistence control flow of saveCalorieGoal, lines 416-481: the remote
insert is attempted first; any remote error is caught and the record is
appended to the localStorage fallback list instead; the success toast is shown
whenever control reaches past the inner try/catch, and the outer catch shows
the failure toast with the message of the error that escaped — which happens
exactly when the fallback write itself throws.  Each write is modelled by the
outcome it would produce. -/
def saveGoalOutcome (remoteWrite localWrite : Except String Unit) : SaveOutcome :=
  match remoteWrite with
  | Except.ok _ => SaveOutcome.success
  | Except.error _ =>
      match localWrite with
      | Except.ok _ => SaveOutcome.success
      | Except.error cause => SaveOutcome.saveFailed cause

/-- A malformed stored goal: empty id and zero maintenance_calories. -/
def invalidGoal : CalorieGoal :=
  { id := "", user_id := "u1", bmr := 0, tdee := 0, maintenance_calories := 0,
    weight_loss_calories := 0, weight_gain_calories := 0, age := 0, weight := 0,
    height := 0, gender := "male", activity_level := 0, unit_system := "metric",
    goal_type := "maintenance", protein_goal := none, carbs_goal := none,
    fat_goal := none, created_at := "2024-02-01T00:00:00Z" }

/-- A well-formed stored goal with id g2 and maintenance_calories 1800. -/
def validGoal : CalorieGoal :=
  { id := "g2", user_id := "u1", bmr := 1700, tdee := 1800, maintenance_calories := 1800,
    weight_loss_calories := 1300, weight_gain_calories := 2300, age := 30, weight := 70,
    height := 175, gender := "male", activity_level := 1.55, unit_system := "metric",
    goal_type := "maintenance", protein_goal := none, carbs_goal := none,
    fat_goal := none, created_at := "2024-01-01T00:00:00Z" }

/-- A stored goal whose goal_type has been relabelled custom by an edit. -/
def customGoal : CalorieGoal :=
  { validGoal with
      weight_loss_calories := 1800
      weight_gain_calories := 1800
      goal_type := "custom" }

/-- A concrete meal inside the windows used by the witnesses below. -/
def sampleMeal : MealRecord :=
  { analyzed_at := 5, calories := 500, protein := 30, carbs := 60, fat := 20 }

end HillCalories

namespace HillCalories

/-- mathRound agrees with the mathematical floor of x + 1/2. -/
theorem mathRound_eq_floor (q : ℚ) : mathRound q = ⌊q + 1/2⌋ := by
  rw [mathRound, Rat.floor_def', ← Rat.floor_def]

/-- Folding accumulateMeal over a meal list adds the component sums of the list
to the accumulator and leaves the goal annotations untouched. -/
theorem foldl_accumulateMeal (l : List MealRecord) (acc : NutritionSummary) :
    l.foldl accumulateMeal acc =
      { acc with
          totalCalories := acc.totalCalories + (l.map MealRecord.calories).sum
          totalProtein := acc.totalProtein + (l.map MealRecord.protein).sum
          totalCarbs := acc.totalCarbs + (l.map MealRecord.carbs).sum
          totalFat := acc.totalFat + (l.map MealRecord.fat).sum
          mealCount := acc.mealCount + l.length } := by
  induction l generalizing acc with
  | nil => simp
  | cons m rest ih =>
      rw [List.foldl_cons, ih]
      simp only [accumulateMeal, List.map_cons, List.sum_cons, List.length_cons,
        NutritionSummary.mk.injEq]
      refine ⟨by ring, by ring, by ring, by ring, by omega, by trivial, by trivial, by trivial⟩

/-- THEOREM C5.  For every age, weight and height, calculateBMR returns
10 * weight + 6.25 * height - 5 * age + 5 for males and
10 * weight + 6.25 * height - 5 * age - 161 for females, so the male result
exceeds the female result by exactly 166 on identical inputs. -/
theorem calculateBMR_formula (age weight height : ℚ) :
    calculateBMR age weight height Gender.male
      = 10 * weight + 6.25 * height - 5 * age + 5 ∧
    calculateBMR age weight height Gender.female
      = 10 * weight + 6.25 * height - 5 * age - 161 ∧
    calculateBMR age weight height Gender.male
      - calculateBMR age weight height Gender.female = 166 := by
  refine ⟨by simp [calculateBMR], by simp [calculateBMR], by simp [calculateBMR]; ring⟩

/-- COUNTEREXAMPLE for C2.  At age 25, weight 70 kg, height 175 cm, male,
activity multiplier 1.55, metric units, the code computes bmr = 1674 (the raw
Mifflin-St Jeor value is 1673.75, not the 1724.75 the claim implies), so the
claimed result record (bmr 1725, tdee 2674, maintenance 2674, weightLoss 2174,
weightGain 3174) is not what the code produces. -/
theorem calculateCalories_scenario_counterexample :
    calculateCalories 25 70 175 Gender.male 1.55 UnitSystem.metric
      ≠ some { bmr := 1725, tdee := 2674, maintenance := 2674,
               weightLoss := 2174, weightGain := 3174 } := by
  have h : toMetric 70 175 UnitSystem.metric = (70, 175) := rfl
  simp only [calculateCalories, h, calculateBMR, mathRound_eq_floor]
  norm_num

/-- THEOREM C2 (amended).  At age 25, weight 70 kg, height 175 cm, male,
activity multiplier 1.55, the computed result is bmr = 1674 (raw 1673.75),
tdee = 2594 (raw 1673.75 * 1.55 = 2594.3125), maintenance = 2594,
weightLoss = 2094 and weightGain = 3094. -/
theorem calculateCalories_scenario :
    calculateCalories 25 70 175 Gender.male 1.55 UnitSystem.metric
      = some { bmr := 1674, tdee := 2594, maintenance := 2594,
               weightLoss := 2094, weightGain := 3094 } := by
  have h : toMetric 70 175 UnitSystem.metric = (70, 175) := rfl
  simp only [calculateCalories, h, calculateBMR, mathRound_eq_floor]
  norm_num

/-- COUNTEREXAMPLE for C1.  On the descending list whose first entry is
malformed (empty id, zero maintenance_calories) and whose second entry is
valid, the code selects no current goal at all, while the claimed
first-valid-skipping-invalid selection would return the valid second entry:
invalid entries after the head are never inspected, so the claim that none is
returned only when no entry is valid is false. -/
theorem selectCurrentGoal_counterexample :
    selectCurrentGoal [invalidGoal, validGoal] = none ∧
    selectCurrentSpec [invalidGoal, validGoal] = some validGoal ∧
    validGoal.id ≠ "" ∧ validGoal.maintenance_calories > 0 := by
  refine ⟨?_, ?_, ?_, ?_⟩
  · simp [selectCurrentGoal, invalidGoal]
  · simp [selectCurrentSpec, invalidGoal, validGoal]
  · simp [validGoal]
  · simp [validGoal]

/-- THEOREM C1 (amended).  The current-goal selection only examines the first
entry of the descending list: it returns the first entry when that entry has a
non-empty id and maintenance_calories > 0 and none otherwise, which is exactly
the first-valid search of the specification restricted to the first element of
the list — entries beyond the head, valid or not, are never considered. -/
theorem selectCurrentGoal_head_only (goals : List CalorieGoal) :
    selectCurrentGoal goals = selectCurrentSpec (goals.take 1) := by
  cases goals with
  | nil => rfl
  | cons g rest =>
      by_cases h : g.id ≠ "" ∧ g.maintenance_calories > 0
      · simp [selectCurrentGoal, selectCurrentSpec, h]
      · simp [selectCurrentGoal, selectCurrentSpec, h]

/-- THEOREM C3.  For every totalCalories and positive goalCalories, the status
is under exactly when totalCalories < 0.9 * goalCalories, over exactly when
totalCalories > 1.1 * goalCalories, and met exactly on the inclusive band
between 0.9 * goalCalories and 1.1 * goalCalories. -/
theorem classifyStatus_spec (totalCalories goalCalories : ℚ)
    (hpos : 0 < goalCalories) :
    (classifyStatus totalCalories goalCalories = GoalStatus.under
        ↔ totalCalories < 0.9 * goalCalories) ∧
    (classifyStatus totalCalories goalCalories = GoalStatus.over
        ↔ totalCalories > 1.1 * goalCalories) ∧
    (classifyStatus totalCalories goalCalories = GoalStatus.met
        ↔ 0.9 * goalCalories ≤ totalCalories
            ∧ totalCalories ≤ 1.1 * goalCalories) := by
  unfold classifyStatus
  split_ifs with h1 h2
  · refine ⟨by simp; linarith, by simp; linarith, by simp; intro ha; linarith⟩
  · refine ⟨by simp; linarith, by simp; linarith, by simp; intro ha; linarith⟩
  · refine ⟨by simp; linarith, by simp; linarith, by simp; constructor <;> linarith⟩

/-- WITNESS for C3 at totalCalories 1500, goalCalories 2000. -/
theorem classifyStatus_spec_witness :
    (0:ℚ) < 2000 ∧
    (classifyStatus 1500 2000 = GoalStatus.under ↔ (1500:ℚ) < 0.9 * 2000) :=
  ⟨by norm_num, (classifyStatus_spec 1500 2000 (by norm_num)).1⟩

/-- COUNTEREXAMPLE for C4.  With goalCalories = 1000, a totalCalories of
exactly 0.9 * 1000 = 900 is classified met, not under: the under comparison is
strict, so the lower boundary point does not return under as the claim
asserts. -/
theorem classifyStatus_lower_boundary_counterexample :
    classifyStatus (0.9 * 1000) 1000 = GoalStatus.met ∧
    classifyStatus (0.9 * 1000) 1000 ≠ GoalStatus.under := by
  have h : classifyStatus (0.9 * 1000) 1000 = GoalStatus.met := by
    norm_num [classifyStatus]
  exact ⟨h, by rw [h]; simp⟩

/-- THEOREM C4 (amended).  For every positive goalCalories, a totalCalories of
exactly 0.9 * goalCalories is classified met (not under: the under comparison
is strict), any totalCalories strictly above 0.9 * goalCalories is likewise
not under, and a totalCalories of exactly 1.1 * goalCalories is classified
met, not over. -/
theorem classifyStatus_boundaries (goalCalories : ℚ) (hpos : 0 < goalCalories) :
    classifyStatus (0.9 * goalCalories) goalCalories = GoalStatus.met ∧
    (∀ totalCalories : ℚ, 0.9 * goalCalories < totalCalories →
        classifyStatus totalCalories goalCalories ≠ GoalStatus.under) ∧
    classifyStatus (1.1 * goalCalories) goalCalories = GoalStatus.met := by
  refine ⟨?_, ?_, ?_⟩
  · unfold classifyStatus
    split_ifs with h1 h2
    · linarith
    · linarith
    · rfl
  · intro totalCalories ht
    unfold classifyStatus
    split_ifs with h1 h2
    · linarith
    · simp
    · simp
  · unfold classifyStatus
    split_ifs with h1 h2
    · linarith
    · linarith
    · rfl

/-- WITNESS for C4 at goalCalories 1000 (and totalCalories 2000 for the
strictly-above clause). -/
theorem classifyStatus_boundaries_witness :
    (0:ℚ) < 1000 ∧
    classifyStatus (0.9 * 1000) 1000 = GoalStatus.met ∧
    classifyStatus 2000 1000 ≠ GoalStatus.under ∧
    classifyStatus (1.1 * 1000) 1000 = GoalStatus.met := by
  have h := classifyStatus_boundaries 1000 (by norm_num)
  exact ⟨by norm_num, h.1, h.2.1 2000 (by norm_num), h.2.2⟩

/-- THEOREM C6.  calculateSummary keeps exactly the meals whose analyzed_at
lies in the inclusive window (a meal is in the filtered list precisely when it
is one of the input meals with windowStart ≤ analyzed_at ≤ windowEnd), returns
the sums of their calories, protein, carbs and fat together with their count,
and when the filtered set is empty it returns mealCount 0 and all four totals
0 without any failure. -/
theorem calculateSummary_spec (meals : List MealRecord) (startDate endDate : ℚ)
    (currentGoal : Option CalorieGoal) :
    (calculateSummary meals startDate endDate currentGoal).totalCalories
        = ((mealsInWindow meals startDate endDate).map MealRecord.calories).sum ∧
    (calculateSummary meals startDate endDate currentGoal).totalProtein
        = ((mealsInWindow meals startDate endDate).map MealRecord.protein).sum ∧
    (calculateSummary meals startDate endDate currentGoal).totalCarbs
        = ((mealsInWindow meals startDate endDate).map MealRecord.carbs).sum ∧
    (calculateSummary meals startDate endDate currentGoal).totalFat
        = ((mealsInWindow meals startDate endDate).map MealRecord.fat).sum ∧
    (calculateSummary meals startDate endDate currentGoal).mealCount
        = (mealsInWindow meals startDate endDate).length ∧
    (∀ meal, meal ∈ mealsInWindow meals startDate endDate ↔
        meal ∈ meals ∧ startDate ≤ meal.analyzed_at ∧ meal.analyzed_at ≤ endDate) ∧
    (mealsInWindow meals startDate endDate = [] →
        (calculateSummary meals startDate endDate currentGoal).mealCount = 0 ∧
        (calculateSummary meals startDate endDate currentGoal).totalCalories = 0 ∧
        (calculateSummary meals startDate endDate currentGoal).totalProtein = 0 ∧
        (calculateSummary meals startDate endDate currentGoal).totalCarbs = 0 ∧
        (calculateSummary meals startDate endDate currentGoal).totalFat = 0) := by
  have key :
      (calculateSummary meals startDate endDate currentGoal).totalCalories
          = ((mealsInWindow meals startDate endDate).map MealRecord.calories).sum ∧
      (calculateSummary meals startDate endDate currentGoal).totalProtein
          = ((mealsInWindow meals startDate endDate).map MealRecord.protein).sum ∧
      (calculateSummary meals startDate endDate currentGoal).totalCarbs
          = ((mealsInWindow meals startDate endDate).map MealRecord.carbs).sum ∧
      (calculateSummary meals startDate endDate currentGoal).totalFat
          = ((mealsInWindow meals startDate endDate).map MealRecord.fat).sum ∧
      (calculateSummary meals startDate endDate currentGoal).mealCount
          = (mealsInWindow meals startDate endDate).length := by
    cases currentGoal <;>
      simp [calculateSummary, foldl_accumulateMeal, emptySummary]
  obtain ⟨k1, k2, k3, k4, k5⟩ := key
  refine ⟨k1, k2, k3, k4, k5, ?_, ?_⟩
  · intro meal
    simp [mealsInWindow, List.mem_filter, and_comm]
  · intro hempty
    rw [hempty] at k1 k2 k3 k4 k5
    simp only [List.map_nil, List.sum_nil, List.length_nil] at k1 k2 k3 k4 k5
    exact ⟨k5, k1, k2, k3, k4⟩

/-- WITNESS for C6 on a one-meal list with the window from 0 to 10 (the meal
is kept and counted) and, for the empty-window clause, the window from 20 to
30 (which filters the meal out). -/
theorem calculateSummary_spec_witness :
    (calculateSummary [sampleMeal] 0 10 none).totalCalories
        = ((mealsInWindow [sampleMeal] 0 10).map MealRecord.calories).sum ∧
    (sampleMeal ∈ mealsInWindow [sampleMeal] 0 10 ↔
        sampleMeal ∈ [sampleMeal] ∧ (0:ℚ) ≤ sampleMeal.analyzed_at
          ∧ sampleMeal.analyzed_at ≤ 10) ∧
    ((calculateSummary [sampleMeal] 20 30 none).mealCount = 0 ∧
      (calculateSummary [sampleMeal] 20 30 none).totalCalories = 0 ∧
      (calculateSummary [sampleMeal] 20 30 none).totalProtein = 0 ∧
      (calculateSummary [sampleMeal] 20 30 none).totalCarbs = 0 ∧
      (calculateSummary [sampleMeal] 20 30 none).totalFat = 0) := by
  have h1 := calculateSummary_spec [sampleMeal] 0 10 none
  have h2 := calculateSummary_spec [sampleMeal] 20 30 none
  refine ⟨h1.1, h1.2.2.2.2.2.1 sampleMeal, h2.2.2.2.2.2.2 ?_⟩
  simp only [mealsInWindow, sampleMeal, List.filter_cons, List.filter_nil]
  norm_num

/-- THEOREM C7.  For every positive weight and height, the unit conversion
with metric units is the identity, and with imperial units it returns exactly
weight * 0.453592 and height * 2.54, with no rounding. -/
theorem toMetric_spec (weight height : ℚ) (hw : 0 < weight) (hh : 0 < height) :
    toMetric weight height UnitSystem.metric = (weight, height) ∧
    toMetric weight height UnitSystem.imperial
        = (weight * 0.453592, height * 2.54) :=
  ⟨rfl, rfl⟩

/-- WITNESS for C7 at weight 154 and height 69. -/
theorem toMetric_spec_witness :
    (0:ℚ) < 154 ∧ (0:ℚ) < 69 ∧
    toMetric 154 69 UnitSystem.metric = (154, 69) ∧
    toMetric 154 69 UnitSystem.imperial = (154 * 0.453592, 69 * 2.54) := by
  have h := toMetric_spec 154 69 (by norm_num) (by norm_num)
  exact ⟨by norm_num, by norm_num, h.1, h.2⟩

/-- THEOREM C8.  Saving a goal reports success exactly when at least one of
the two writes (remote first, local fallback second) succeeds — a remote
failure alone is never surfaced — and a SaveFailed outcome carrying an
underlying cause arises exactly when the remote write failed and the local
fallback write failed with that cause. -/
theorem saveGoalOutcome_spec (remoteWrite localWrite : Except String Unit) :
    (saveGoalOutcome remoteWrite localWrite = SaveOutcome.success
        ↔ remoteWrite = Except.ok () ∨ localWrite = Except.ok ()) ∧
    (∀ cause, saveGoalOutcome remoteWrite localWrite = SaveOutcome.saveFailed cause
        ↔ (∃ remoteCause, remoteWrite = Except.error remoteCause)
            ∧ localWrite = Except.error cause) := by
  cases remoteWrite <;> cases localWrite <;> simp [saveGoalOutcome]

/-- WITNESS for C8: a failed remote write followed by a successful local write
is reported as success, and two failed writes surface the local cause. -/
theorem saveGoalOutcome_spec_witness :
    saveGoalOutcome (Except.error "network down") (Except.ok ()) = SaveOutcome.success ∧
    saveGoalOutcome (Except.error "network down") (Except.error "quota exceeded")
        = SaveOutcome.saveFailed "quota exceeded" := by
  constructor
  · exact (saveGoalOutcome_spec (Except.error "network down") (Except.ok ())).1.mpr
      (Or.inr rfl)
  · exact ((saveGoalOutcome_spec (Except.error "network down")
      (Except.error "quota exceeded")).2 "quota exceeded").mpr
      ⟨⟨"network down", rfl⟩, rfl⟩

/-- THEOREM C9.  For every stored goal and positive edited value, the edit
writes the single edited value into both weight_loss_calories and
weight_gain_calories and sets goal_type to custom, while maintenance_calories
and every other field (id, user_id, bmr, tdee, the macro goals, created_at and
the body-metric snapshot) are left unchanged. -/
theorem saveEditedCalorieGoal_spec (g : CalorieGoal) (v : ℚ) (hv : 0 < v) :
    (saveEditedCalorieGoal g v).weight_loss_calories = v ∧
    (saveEditedCalorieGoal g v).weight_gain_calories = v ∧
    (saveEditedCalorieGoal g v).goal_type = "custom" ∧
    (saveEditedCalorieGoal g v).maintenance_calories = g.maintenance_calories ∧
    (saveEditedCalorieGoal g v).id = g.id ∧
    (saveEditedCalorieGoal g v).user_id = g.user_id ∧
    (saveEditedCalorieGoal g v).bmr = g.bmr ∧
    (saveEditedCalorieGoal g v).tdee = g.tdee ∧
    (saveEditedCalorieGoal g v).protein_goal = g.protein_goal ∧
    (saveEditedCalorieGoal g v).carbs_goal = g.carbs_goal ∧
    (saveEditedCalorieGoal g v).fat_goal = g.fat_goal ∧
    (saveEditedCalorieGoal g v).created_at = g.created_at ∧
    (saveEditedCalorieGoal g v).age = g.age ∧
    (saveEditedCalorieGoal g v).weight = g.weight ∧
    (saveEditedCalorieGoal g v).height = g.height ∧
    (saveEditedCalorieGoal g v).gender = g.gender ∧
    (saveEditedCalorieGoal g v).activity_level = g.activity_level ∧
    (saveEditedCalorieGoal g v).unit_system = g.unit_system :=
  ⟨rfl, rfl, rfl, rfl, rfl, rfl, rfl, rfl, rfl, rfl, rfl, rfl, rfl, rfl, rfl,
    rfl, rfl, rfl⟩

/-- WITNESS for C9: editing the sample valid goal to 1800 calories. -/
theorem saveEditedCalorieGoal_spec_witness :
    (0:ℚ) < 1800 ∧
    (saveEditedCalorieGoal validGoal 1800).weight_loss_calories = 1800 ∧
    (saveEditedCalorieGoal validGoal 1800).weight_gain_calories = 1800 ∧
    (saveEditedCalorieGoal validGoal 1800).goal_type = "custom" ∧
    (saveEditedCalorieGoal validGoal 1800).maintenance_calories
        = validGoal.maintenance_calories := by
  have h := saveEditedCalorieGoal_spec validGoal 1800 (by norm_num)
  exact ⟨by norm_num, h.1, h.2.1, h.2.2.1, h.2.2.2.1⟩

/-- THEOREM C10.  When a current goal exists, the summary annotates dailyGoal
and the status classification with the goal target selected by goal_type:
maintenance_calories when goal_type is maintenance, weight_loss_calories when
it is weight_loss, and weight_gain_calories for every other goal_type — in
particular a custom goal is compared against its weight_gain_calories field. -/
theorem goalCalories_selection (g : CalorieGoal) (meals : List MealRecord)
    (startDate endDate : ℚ) :
    (calculateSummary meals startDate endDate (some g)).dailyGoal
        = some (goalCaloriesOf g) ∧
    (calculateSummary meals startDate endDate (some g)).goalStatus
        = some (classifyStatus
            (calculateSummary meals startDate endDate (some g)).totalCalories
            (goalCaloriesOf g)) ∧
    (g.goal_type = "maintenance" → goalCaloriesOf g = g.maintenance_calories) ∧
    (g.goal_type = "weight_loss" → goalCaloriesOf g = g.weight_loss_calories) ∧
    (g.goal_type ≠ "maintenance" → g.goal_type ≠ "weight_loss" →
        goalCaloriesOf g = g.weight_gain_calories) ∧
    (g.goal_type = "custom" → goalCaloriesOf g = g.weight_gain_calories) := by
  refine ⟨rfl, rfl, ?_, ?_, ?_, ?_⟩
  · intro h
    unfold goalCaloriesOf
    rw [if_pos h]
  · intro h
    unfold goalCaloriesOf
    rw [if_neg (by rw [h]; decide), if_pos h]
  · intro h1 h2
    unfold goalCaloriesOf
    rw [if_neg h1, if_neg h2]
  · intro h
    unfold goalCaloriesOf
    rw [if_neg (by rw [h]; decide), if_neg (by rw [h]; decide)]

/-- WITNESS for C10: the sample custom goal is compared against its
weight_gain_calories field and annotated into the summary. -/
theorem goalCalories_selection_witness :
    (calculateSummary [] 0 10 (some customGoal)).dailyGoal
        = some (goalCaloriesOf customGoal) ∧
    goalCaloriesOf customGoal = customGoal.weight_gain_calories := by
  have h := goalCalories_selection customGoal [] 0 10
  exact ⟨h.1, h.2.2.2.2.2 rfl⟩

end HillCalories
